import Mathlib

/-!
Shallow embedding of the notebook code of the
`amazon-sagemaker-build-train-deploy` repository, together with theorems
settling the specification claims against it.

The embedded fragments are:
* the Glue table-schema update (`update_table`) of the data-exploration
  notebook (column list of the raw sensor dataset);
* the crawler polling loop after `start_crawler`;
* the SageMaker SDK version gate (`versiontuple` and the upgrade branch);
* the pipeline parameters and XGBoost hyperparameters of the workflow
  notebook, pipeline step wiring, and `pipeline.start` overrides;
* the baseline statistics/constraints feature reordering and re-upload of
  the deploy/monitor notebook;
* the monitoring-reports listing cell with its exception handler;
* the deletion calls appearing in the notebooks;
* the model-path string slicing on the deploy-from-registry path.

Python values are modelled as follows: Python `str` either as Lean
`String` or, where index arithmetic matters, as `List Char`; Python list
operations that can raise (`l[-1]`, `del l[-1]`) return `Option`;
code that can raise an uncaught exception returns `Except String`.
-/

namespace SagemakerE2E

/-! ### Glue catalog: the `update_table` column schema (data-exploration notebook)

The notebook sets `table['Table']['StorageDescriptor']['Columns']` to a
literal list of twelve `(Name, Type)` dictionaries and then calls
`glue_client.update_table`. -/

/-- One Glue column dictionary: a `Name` and a `Type`. -/
structure GlueColumn where
  name : String
  type : String
deriving DecidableEq, Repr

/-- The literal column list assigned to
`table['Table']['StorageDescriptor']['Columns']` before `update_table`. -/
def updatedTableColumns : List GlueColumn :=
  [⟨"turbine_id", "string"⟩,
   ⟨"turbine_type", "string"⟩,
   ⟨"wind_speed", "double"⟩,
   ⟨"rpm_blade", "double"⟩,
   ⟨"oil_temperature", "double"⟩,
   ⟨"oil_level", "double"⟩,
   ⟨"temperature", "double"⟩,
   ⟨"humidity", "double"⟩,
   ⟨"vibrations_frequency", "double"⟩,
   ⟨"pressure", "double"⟩,
   ⟨"wind_direction", "string"⟩,
   ⟨"breakdown", "string"⟩]

/-- The columns of `updatedTableColumns` whose Glue type is `double`. -/
def doubleColumns : List GlueColumn :=
  updatedTableColumns.filter (fun c => c.type == "double")

end SagemakerE2E

namespace SagemakerE2E

/-- C1 (counterexample part): the registered schema has twelve columns, but
only eight of them are `double`-typed; in particular it does not contain
nine double-typed columns, contrary to the claim. -/
theorem c1_counterexample :
    updatedTableColumns.length = 12 ∧
    doubleColumns.length = 8 ∧ ¬ doubleColumns.length = 9 := by
  refine ⟨by decide, by decide, by decide⟩

/-- C1 (amended): the raw sensor dataset, as registered by `update_table`,
has exactly twelve columns: one string identifier (`turbine_id`), one
string categorical type (`turbine_type`), eight double-typed numeric
sensor-measurement columns, one string-typed sensor-measurement column
(`wind_direction`), and one string binary outcome label (`breakdown`). -/
theorem c1_twelve_column_schema :
    updatedTableColumns.length = 12 ∧
    updatedTableColumns.take 2 =
      [⟨"turbine_id", "string"⟩, ⟨"turbine_type", "string"⟩] ∧
    (updatedTableColumns.drop 2).take 8 =
      [⟨"wind_speed", "double"⟩, ⟨"rpm_blade", "double"⟩,
       ⟨"oil_temperature", "double"⟩, ⟨"oil_level", "double"⟩,
       ⟨"temperature", "double"⟩, ⟨"humidity", "double"⟩,
       ⟨"vibrations_frequency", "double"⟩, ⟨"pressure", "double"⟩] ∧
    updatedTableColumns.drop 10 =
      [⟨"wind_direction", "string"⟩, ⟨"breakdown", "string"⟩] ∧
    doubleColumns.length = 8 := by
  refine ⟨by decide, by decide, by decide, by decide, by decide⟩

/-! ### The crawler polling loop (data-exploration notebook)

```python
glue_client.start_crawler(Name='endtoendml-crawler')
while glue_client.get_crawler_metrics(...)['CrawlerMetricsList'][0]['TablesCreated'] == 0:
    print('RUNNING')
    time.sleep(15)
```

The remote service's behaviour is modelled as a function
`metrics : Nat → Nat` giving the `TablesCreated` value observed at the
n-th poll.  The loop is embedded fuel-indexed: `crawlerPollAux metrics i
fuel` returns `some j` when, within `fuel` further iterations starting at
poll `i`, some poll `j` observes a nonzero value (at which point the
`while` condition fails and the loop exits), and `none` when the fuel is
exhausted with every observed value zero. -/

/-- Fuel-indexed run of the `while ... TablesCreated == 0` loop starting
at poll index `i`. -/
def crawlerPollAux (metrics : Nat → Nat) (i : Nat) : Nat → Option Nat
  | 0 => none
  | fuel + 1 =>
    if metrics i = 0 then crawlerPollAux metrics (i + 1) fuel else some i

/-- The polling loop terminates on service behaviour `metrics`: some
finite number of iterations suffices for the loop to exit. -/
def crawlerPollTerminates (metrics : Nat → Nat) : Prop :=
  ∃ fuel, (crawlerPollAux metrics 0 fuel).isSome

/-- On the all-zero behaviour the loop never exits, whatever the fuel and
the starting index. -/
theorem crawlerPollAux_zero_behaviour (fuel : Nat) :
    ∀ i, crawlerPollAux (fun _ => 0) i fuel = none := by
  induction fuel with
  | zero => intro i; rfl
  | succ n ih =>
    intro i
    simp only [crawlerPollAux, if_pos rfl]
    exact ih (i + 1)

/-- If the loop exits within some fuel, the exit poll observed a nonzero
`TablesCreated`. -/
theorem crawlerPollAux_some_nonzero (metrics : Nat → Nat) :
    ∀ fuel i j, crawlerPollAux metrics i fuel = some j → metrics j ≠ 0 := by
  intro fuel
  induction fuel with
  | zero => intro i j h; exact absurd h (by simp [crawlerPollAux])
  | succ n ih =>
    intro i j h
    by_cases hz : metrics i = 0
    · exact ih (i + 1) j (by simpa [crawlerPollAux, hz] using h)
    · have : some i = some j := by simpa [crawlerPollAux, hz] using h
      cases this
      exact hz

/-- If poll `i + n` observes a nonzero value, fuel `n + 1` suffices for
the loop started at poll `i` to exit. -/
theorem crawlerPollAux_exits (metrics : Nat → Nat) :
    ∀ n i, metrics (i + n) ≠ 0 → (crawlerPollAux metrics i (n + 1)).isSome := by
  intro n
  induction n with
  | zero =>
    intro i h
    simp only [Nat.add_zero] at h
    simp [crawlerPollAux, h]
  | succ m ih =>
    intro i h
    by_cases hz : metrics i = 0
    · have hm : metrics ((i + 1) + m) ≠ 0 := by
        have : (i + 1) + m = i + (m + 1) := by omega
        rw [this]; exact h
      simpa [crawlerPollAux, hz] using ih (i + 1) hm
    · simp [crawlerPollAux, hz]

/-- C2 (counterexample): for the service behaviour whose `TablesCreated`
metric remains `0` forever, the crawler polling loop does not terminate —
the loop has no timeout, contrary to the claim. -/
theorem c2_counterexample : ¬ crawlerPollTerminates (fun _ => 0) := by
  rintro ⟨fuel, h⟩
  rw [crawlerPollAux_zero_behaviour fuel 0] at h
  exact absurd h (by simp)

/-- C2 (amended): the crawler polling loop re-checks the `TablesCreated`
metric at a fixed interval but has no timeout: it terminates exactly for
those service behaviours in which some poll observes a nonzero
`TablesCreated`; on a behaviour whose metric remains `0` forever it polls
forever. -/
theorem c2_poll_terminates_iff (metrics : Nat → Nat) :
    crawlerPollTerminates metrics ↔ ∃ n, metrics n ≠ 0 := by
  constructor
  · rintro ⟨fuel, h⟩
    rcases Option.isSome_iff_exists.mp h with ⟨j, hj⟩
    exact ⟨j, crawlerPollAux_some_nonzero metrics fuel 0 j hj⟩
  · rintro ⟨n, hn⟩
    refine ⟨n + 1, crawlerPollAux_exits metrics n 0 ?_⟩
    simpa using hn

/-! ### Pipeline parameters and XGBoost hyperparameters (workflow notebook)

The workflow notebook declares each XGBoost hyperparameter as a SageMaker
`ParameterString` with a default value, lists all of them in the
`Pipeline(parameters=[...])` declaration, and builds the estimator's
`hyperparameters` dictionary from those parameter objects (plus the fixed
literal `"silent": 0`).  A `pipeline.start(parameters={...})` call may
override any declared parameter by name; the notebook's own call passes
only `train_test_split_ratio`. -/

/-- A SageMaker pipeline `ParameterString`: a name and a default value. -/
structure PipelineParam where
  name : String
  defaultValue : String
deriving DecidableEq, Repr

def maxDepthParam : PipelineParam := ⟨"max_depth", "3"⟩
def etaParam : PipelineParam := ⟨"eta", "0.1"⟩
def gammaParam : PipelineParam := ⟨"gamma", "0"⟩
def minChildWeightParam : PipelineParam := ⟨"min_child_weight", "1"⟩
def objectiveParam : PipelineParam := ⟨"objective", "binary:logistic"⟩
def numRoundParam : PipelineParam := ⟨"num_round", "10"⟩
def scalePosWeightParam : PipelineParam := ⟨"scale_pos_weight", "6.32"⟩
def evalMetricParam : PipelineParam := ⟨"eval_metric", "auc"⟩

/-- The eight hyperparameter `ParameterString`s declared in the workflow
notebook (all appear in the `Pipeline(parameters=[...])` list). -/
def xgbHyperparameterParams : List PipelineParam :=
  [maxDepthParam, etaParam, gammaParam, minChildWeightParam,
   objectiveParam, numRoundParam, scalePosWeightParam, evalMetricParam]

/-- Resolution of a pipeline parameter in an execution: the value supplied
in `pipeline.start(parameters=...)` when the name is present, the declared
default otherwise. -/
def resolveParam (overrides : List (String × String)) (p : PipelineParam) :
    String :=
  match overrides.lookup p.name with
  | some v => v
  | none => p.defaultValue

/-- The `hyperparameters` dictionary passed to the `XGBoost` estimator of
the workflow notebook, as resolved in a pipeline execution with the given
`pipeline.start` overrides.  `"silent"` is the fixed literal `0`; every
other entry is a pipeline parameter. -/
def xgbHyperparameters (overrides : List (String × String)) :
    List (String × String) :=
  [("max_depth", resolveParam overrides maxDepthParam),
   ("eta", resolveParam overrides etaParam),
   ("gamma", resolveParam overrides gammaParam),
   ("min_child_weight", resolveParam overrides minChildWeightParam),
   ("silent", "0"),
   ("objective", resolveParam overrides objectiveParam),
   ("num_round", resolveParam overrides numRoundParam),
   ("scale_pos_weight", resolveParam overrides scalePosWeightParam),
   ("eval_metric", resolveParam overrides evalMetricParam)]

/-- The `parameters` argument of the notebook's own `pipeline.start` call. -/
def notebookStartOverrides : List (String × String) :=
  [("train_test_split_ratio", "0.2")]

/-- The hyperparameter dictionary as resolved from the declared defaults. -/
def xgbDefaultHyperparameters : List (String × String) :=
  [("max_depth", "3"), ("eta", "0.1"), ("gamma", "0"),
   ("min_child_weight", "1"), ("silent", "0"),
   ("objective", "binary:logistic"), ("num_round", "10"),
   ("scale_pos_weight", "6.32"), ("eval_metric", "auc")]

/-- C3 (counterexample): a run-time input to a pipeline execution can
change the training hyperparameters: starting the pipeline with the
override `max_depth = "5"` yields a hyperparameter dictionary different
from the default one, and its `max_depth` entry is `"5"`, not `"3"`. -/
theorem c3_counterexample :
    xgbHyperparameters [("max_depth", "5")] ≠ xgbHyperparameters [] ∧
    (xgbHyperparameters [("max_depth", "5")]).lookup "max_depth" =
      some "5" := by
  refine ⟨by decide, by decide⟩

/-- C3 (amended): the eight XGBoost hyperparameters are declared pipeline
parameters with fixed default values, so a `pipeline.start` override can
change them; but in any execution whose overrides mention none of the
hyperparameter names — in particular the notebook's own
`pipeline.start(parameters={train_test_split_ratio: "0.2"})` — the
training job receives exactly the fixed default values. -/
theorem c3_default_hyperparameters
    (overrides : List (String × String))
    (h : ∀ p ∈ xgbHyperparameterParams, overrides.lookup p.name = none) :
    xgbHyperparameters overrides = xgbDefaultHyperparameters ∧
    xgbHyperparameters notebookStartOverrides = xgbDefaultHyperparameters := by
  constructor
  · have h1 := h maxDepthParam (by decide)
    have h2 := h etaParam (by decide)
    have h3 := h gammaParam (by decide)
    have h4 := h minChildWeightParam (by decide)
    have h5 := h objectiveParam (by decide)
    have h6 := h numRoundParam (by decide)
    have h7 := h scalePosWeightParam (by decide)
    have h8 := h evalMetricParam (by decide)
    simp only [xgbHyperparameters, resolveParam, h1, h2, h3, h4, h5, h6, h7, h8]
    rfl
  · decide

/-- C3 witness: the hypothesis of `c3_default_hyperparameters` holds at
the notebook's own overrides, and the conclusion evaluates there. -/
theorem c3_default_hyperparameters_witness :
    xgbHyperparameters notebookStartOverrides = xgbDefaultHyperparameters :=
  (c3_default_hyperparameters notebookStartOverrides (by decide)).1

/-! ### S3 listing cells of the deploy/monitor notebook (C4)

Both the data-capture listing cell and the monitoring-reports listing cell
run

```python
result = s3_client.list_objects(Bucket=bucket_name, Prefix=...)
files = ['s3://{0}/{1}'.format(bucket_name, f.get("Key")) for f in result.get('Contents')]
```

When no object matches the key prefix, `result.get('Contents')` is `None`
and the comprehension raises `TypeError`.  The capture-files cell runs
this bare; the monitoring-reports cell wraps it in
`try: ... except: print('No monitoring reports found.')`.

`list_objects` responses are modelled by the optional `Contents` key
(`Option (List String)` of object keys); a raised Python exception is an
`Except.error`. -/

/-- The list comprehension over `result.get('Contents')`: raises
`TypeError` when the `Contents` key is absent (`None`), else builds the
`s3://bucket/key` URI list. -/
def listObjectUris (bucket : String) (contents : Option (List String)) :
    Except String (List String) :=
  match contents with
  | none => .error "TypeError"
  | some keys => .ok (keys.map (fun k => "s3://" ++ bucket ++ "/" ++ k))

/-- The data-capture listing cell: the comprehension runs bare, so any
exception propagates out of the cell. -/
def captureFilesCell (bucket : String) (contents : Option (List String)) :
    Except String (List String) :=
  listObjectUris bucket contents

/-- The monitoring-reports listing cell: the comprehension runs inside a
bare `try/except` whose handler prints a fallback message; the cell never
propagates an exception. -/
def monitoringReportsCell (bucket : String) (contents : Option (List String)) :
    String ⊕ List String :=
  match listObjectUris bucket contents with
  | .ok uris => .inr uris
  | .error _ => .inl "No monitoring reports found."

/-- C4 (counterexample): listing monitoring reports that have not yet been
delivered (no `Contents` in the response) raises a `TypeError` inside the
cell, but the cell catches it and executes the fallback branch instead of
propagating it — the deploy/monitor notebook does contain a statement
catching a client-library exception, contrary to the claim. -/
theorem c4_counterexample :
    listObjectUris "bucket" none = .error "TypeError" ∧
    monitoringReportsCell "bucket" none =
      .inl "No monitoring reports found." := ⟨rfl, rfl⟩

/-- C4 (amended): with the single exception of the monitoring-reports
listing cell — which wraps its listing in a bare `try/except` and prints
`No monitoring reports found.` on any exception, never propagating it —
the notebooks do not catch client-library exceptions: in particular the
analogous data-capture listing cell propagates the `TypeError` raised when
no captured data has been delivered yet. -/
theorem c4_exception_handling (bucket : String)
    (contents : Option (List String)) :
    (captureFilesCell bucket none = .error "TypeError") ∧
    (∀ e, listObjectUris bucket contents = .error e →
      monitoringReportsCell bucket contents =
        .inl "No monitoring reports found.") := by
  refine ⟨rfl, fun e he => ?_⟩
  simp only [monitoringReportsCell, he]

/-- C4 witness: `c4_exception_handling` evaluated on the empty-response
input. -/
theorem c4_exception_handling_witness :
    monitoringReportsCell "bucket" none =
      .inl "No monitoring reports found." :=
  (c4_exception_handling "bucket" none).2 "TypeError" rfl

/-! ### Baseline statistics/constraints reorder and re-upload (C5, C9)

After the baselining job writes `statistics.json` and `constraints.json`
under the baseline results path, the deploy/monitor notebook downloads
each file, runs

```python
loaded['features'].insert(0, loaded['features'][-1])
del loaded['features'][-1]
```

and uploads the result back to the very same S3 path.  The `features`
value is modelled as a list; Python `l[-1]` and `del l[-1]` raise
`IndexError` on the empty list, hence `Option`. -/

/-- Python `l[-1]`: the last element, `IndexError` (`none`) when empty. -/
def pyLastItem : List α → Option α := List.getLast?

/-- Python `del l[-1]`: drop the last element, `IndexError` when empty. -/
def pyDelLast (l : List α) : Option (List α) :=
  if l.isEmpty then none else some l.dropLast

/-- The feature-reordering step applied to a `features` list: insert the
last element at index 0, then delete the (new) last element. -/
def featuresReorder (l : List α) : Option (List α) := do
  let x ← pyLastItem l
  pyDelLast (List.insertIdx 0 x l)

/-- A statistics or constraints JSON document, reduced to its `features`
list (the only part the notebook modifies). -/
structure BaselineDoc (α : Type) where
  features : List α
deriving DecidableEq, Repr

/-- The reorder step on a whole document. -/
def docReorder (d : BaselineDoc α) : Option (BaselineDoc α) :=
  (featuresReorder d.features).map BaselineDoc.mk

/-- An S3 store: a partial map from object path to document. -/
def S3Store (α : Type) := String → Option (BaselineDoc α)

/-- `aws s3 cp local remote`: update the store at one path. -/
def s3Put (σ : S3Store α) (path : String) (d : BaselineDoc α) : S3Store α :=
  fun p => if p = path then some d else σ p

/-- Download the document at `path`, reorder its features, and upload the
result back to `path` (the notebook's download / modify / re-upload
sequence for one file).  Fails if the path is absent or the features list
is empty. -/
def reorderAtPath (σ : S3Store α) (path : String) : Option (S3Store α) := do
  let d ← σ path
  let d' ← docReorder d
  pure (s3Put σ path d')

/-- Path of the baseline statistics file (`baseline_results_path +
'/statistics.json'`, relative to the bucket/prefix). -/
def statisticsPath : String :=
  "monitoring/baselining/results/statistics.json"

/-- Path of the baseline constraints file. -/
def constraintsPath : String :=
  "monitoring/baselining/results/constraints.json"

/-- The store state after the baselining job has produced the statistics
and constraints documents at their result paths. -/
def afterBaselining (σ : S3Store α) (stats constraints : BaselineDoc α) :
    S3Store α :=
  s3Put (s3Put σ statisticsPath stats) constraintsPath constraints

/-- The store state after the notebook's two reorder-and-re-upload steps. -/
def afterReorderSteps (σ : S3Store α) : Option (S3Store α) := do
  let σ1 ← reorderAtPath σ statisticsPath
  reorderAtPath σ1 constraintsPath

/-- On a non-empty list, the insert-at-0-then-delete-last sequence yields
the original last element followed by all but the last, in order. -/
theorem featuresReorder_eq {α : Type} (l : List α) (h : l ≠ []) :
    featuresReorder l = some (l.getLast h :: l.dropLast) := by
  rcases List.eq_nil_or_concat l with rfl | ⟨L, b, rfl⟩
  · exact absurd rfl h
  · have h1 : pyLastItem (L ++ [b]) = some b := by simp [pyLastItem]
    have h3 : (b :: (L ++ [b])).dropLast = b :: L := by
      show ((b :: L) ++ [b]).dropLast = b :: L
      exact List.dropLast_concat
    simp [featuresReorder, pyDelLast, h1, h3, List.getLast_concat]

/-- C9: on every non-empty `features` list the reorder step (insert the
last element at index 0, then delete the last element) returns the list
headed by the original last element followed by the remaining elements in
their original relative order; length and multiset of elements are
preserved.  On the empty list the step fails with an index error. -/
theorem c9_features_reorder_spec {α : Type} :
    (∀ (l : List α) (h : l ≠ []),
      featuresReorder l = some (l.getLast h :: l.dropLast) ∧
      (l.getLast h :: l.dropLast).length = l.length ∧
      (l.getLast h :: l.dropLast).Perm l) ∧
    featuresReorder ([] : List α) = none := by
  refine ⟨fun l h => ⟨featuresReorder_eq l h, ?_, ?_⟩, rfl⟩
  · have := List.length_dropLast l
    have : l.length ≠ 0 := by
      intro h0
      exact h (List.eq_nil_of_length_eq_zero h0)
    simp [List.length_dropLast]
    omega
  · have hsplit : l.dropLast ++ [l.getLast h] = l :=
      List.dropLast_append_getLast h
    have hperm : (l.getLast h :: l.dropLast).Perm
        (l.dropLast ++ [l.getLast h]) :=
      (List.perm_append_singleton _ _).symm
    have hfin : (l.dropLast ++ [l.getLast h]).Perm l := by
      rw [hsplit]
    exact hperm.trans hfin

/-- C9 witness: the reorder step evaluated on the concrete list
`[1, 2, 3]` produces `[3, 1, 2]`. -/
theorem c9_features_reorder_spec_witness :
    featuresReorder [1, 2, 3] = some [3, 1, 2] := by
  have h := (@c9_features_reorder_spec Nat).1 [1, 2, 3] (by decide)
  rw [h.1]; decide

/-- C5 (counterexample): the baseline statistics artifact is not immutable
after production: starting from an empty store, the baselining job writes
`⟨[1, 2, 3]⟩` at the statistics path, and the later reorder step
overwrites that same path with the different document `⟨[3, 1, 2]⟩`. -/
theorem c5_counterexample :
    (afterBaselining (fun _ => none) (⟨[1, 2, 3]⟩ : BaselineDoc Nat)
        ⟨[4, 5]⟩) statisticsPath = some ⟨[1, 2, 3]⟩ ∧
    (afterReorderSteps (afterBaselining (fun _ => none)
        (⟨[1, 2, 3]⟩ : BaselineDoc Nat) ⟨[4, 5]⟩)).map
      (fun σ => σ statisticsPath) = some (some ⟨[3, 1, 2]⟩) ∧
    (⟨[3, 1, 2]⟩ : BaselineDoc Nat) ≠ ⟨[1, 2, 3]⟩ := by
  refine ⟨by decide, by decide, by decide⟩

/-- C5 (amended): the dataset, encoder and model artifacts are written
once and only read afterwards, but the baseline statistics and constraints
files are each modified once after production: the notebook downloads
them, reorders their `features` list, and re-uploads the result to the
same storage location.  Every other path of the store is untouched by the
reorder steps. -/
theorem c5_reorder_overwrites_in_place {α : Type} (σ0 : S3Store α)
    (s c : BaselineDoc α) (hs : s.features ≠ []) (hc : c.features ≠ []) :
    ∃ σf, afterReorderSteps (afterBaselining σ0 s c) = some σf ∧
      σf statisticsPath =
        some ⟨s.features.getLast hs :: s.features.dropLast⟩ ∧
      σf constraintsPath =
        some ⟨c.features.getLast hc :: c.features.dropLast⟩ ∧
      ∀ p, p ≠ statisticsPath → p ≠ constraintsPath → σf p = σ0 p := by
  have hne : statisticsPath ≠ constraintsPath := by decide
  have hread1 : (afterBaselining σ0 s c) statisticsPath = some s := by
    simp [afterBaselining, s3Put, hne]
  have hstep1 : reorderAtPath (afterBaselining σ0 s c) statisticsPath =
      some (s3Put (afterBaselining σ0 s c) statisticsPath
        ⟨s.features.getLast hs :: s.features.dropLast⟩) := by
    simp [reorderAtPath, hread1, docReorder, featuresReorder_eq _ hs]
  set σ1 := s3Put (afterBaselining σ0 s c) statisticsPath
    ⟨s.features.getLast hs :: s.features.dropLast⟩ with hσ1
  have hread2 : σ1 constraintsPath = some c := by
    simp [hσ1, s3Put, afterBaselining, Ne.symm hne]
  have hstep2 : reorderAtPath σ1 constraintsPath =
      some (s3Put σ1 constraintsPath
        ⟨c.features.getLast hc :: c.features.dropLast⟩) := by
    simp [reorderAtPath, hread2, docReorder, featuresReorder_eq _ hc]
  refine ⟨s3Put σ1 constraintsPath
    ⟨c.features.getLast hc :: c.features.dropLast⟩, ?_, ?_, ?_, ?_⟩
  · simp [afterReorderSteps, hstep1, hstep2]
  · simp [s3Put, hne, hσ1]
  · simp [s3Put]
  · intro p hp1 hp2
    simp [s3Put, hp1, hp2, hσ1, afterBaselining]

/-- C5 witness: `c5_reorder_overwrites_in_place` evaluated on an empty
initial store with concrete statistics `⟨[1, 2, 3]⟩` and constraints
`⟨[4, 5]⟩`. -/
theorem c5_reorder_overwrites_in_place_witness :
    ∃ σf, afterReorderSteps (afterBaselining (fun _ => none)
        (⟨[1, 2, 3]⟩ : BaselineDoc Nat) ⟨[4, 5]⟩) = some σf ∧
      σf statisticsPath = some ⟨[3, 1, 2]⟩ ∧
      σf constraintsPath = some ⟨[5, 4]⟩ ∧
      ∀ p, p ≠ statisticsPath → p ≠ constraintsPath → σf p = none := by
  have h := c5_reorder_overwrites_in_place (fun _ => none)
    (⟨[1, 2, 3]⟩ : BaselineDoc Nat) ⟨[4, 5]⟩ (by decide) (by decide)
  simpa using h

/-! ### Pipeline step wiring (workflow notebook, C6)

The workflow notebook builds four steps.  The training step's `train` and
`validation` input channels are `TrainingInput`s whose `s3_data` are
property references to the processing step's `train_data` and `val_data`
output locations (`processing_step.properties.ProcessingOutputConfig
.Outputs[...].S3Output.S3Uri`); the register steps' `model_data` are
property references likewise.  In the pipeline DSL such a reference makes
the referenced step a dependency: in every execution the referenced step
completes before the referencing step starts. -/

/-- An S3 location in a step definition: either a literal/parameter URI or
a property reference to a named output of a named step. -/
inductive S3DataRef where
  | literal (uri : String)
  | propertyRef (stepName outputName : String)
deriving DecidableEq, Repr

/-- A named input channel of a training step. -/
structure TrainingChannel where
  channel : String
  s3Data : S3DataRef
deriving DecidableEq, Repr

/-- The `inputs` dictionary of the workflow notebook's `TrainingStep`. -/
def trainingStepInputs : List TrainingChannel :=
  [⟨"train", .propertyRef "Processing" "train_data"⟩,
   ⟨"validation", .propertyRef "Processing" "val_data"⟩]

/-- The output names of the workflow notebook's `ProcessingStep`. -/
def processingStepOutputNames : List String :=
  ["train_data", "val_data", "model"]

/-- Step names referenced by a list of training channels. -/
def referencedSteps (channels : List TrainingChannel) : List String :=
  channels.filterMap (fun ch =>
    match ch.s3Data with
    | .propertyRef s _ => some s
    | .literal _ => none)

/-- The four steps of the workflow pipeline with the step names each one
references through properties (`Training` via its input channels, the two
register steps via their `model_data`). -/
def pipelineStepDeps : List (String × List String) :=
  [("Processing", []),
   ("Training", referencedSteps trainingStepInputs),
   ("RegisterFeaturizerModel", ["Processing"]),
   ("RegisterXGBoostModel", ["Training"])]

/-- An execution order of the pipeline is valid when it schedules every
step and every property-referenced step completes before the step that
references it starts. -/
def validExecutionOrder (order : List String) : Bool :=
  (pipelineStepDeps.all (fun sd => order.contains sd.1)) &&
  (pipelineStepDeps.all (fun sd =>
    sd.2.all (fun d => order.indexOf d < order.indexOf sd.1)))

/-- C6: the training step's `train` and `validation` channels are exactly
property references to the processing step's `train_data` and `val_data`
outputs, both of which the processing step produces; consequently, in
every valid execution order of the pipeline the processing
(encoder-fitting) step completes before the training step starts. -/
theorem c6_processing_before_training (order : List String)
    (h : validExecutionOrder order = true) :
    trainingStepInputs =
      [⟨"train", .propertyRef "Processing" "train_data"⟩,
       ⟨"validation", .propertyRef "Processing" "val_data"⟩] ∧
    "train_data" ∈ processingStepOutputNames ∧
    "val_data" ∈ processingStepOutputNames ∧
    order.indexOf "Processing" < order.indexOf "Training" := by
  refine ⟨rfl, by decide, by decide, ?_⟩
  have h2 := (Bool.and_eq_true _ _).mp h |>.2
  rw [List.all_eq_true] at h2
  have ht := h2 ("Training", referencedSteps trainingStepInputs)
    (by decide)
  rw [List.all_eq_true] at ht
  have := ht "Processing" (by decide)
  simpa using this

/-- C6 witness: the notebook's declared step list in source order is a
valid execution order, and there the processing step precedes training. -/
theorem c6_processing_before_training_witness :
    validExecutionOrder
      ["Processing", "Training", "RegisterFeaturizerModel",
       "RegisterXGBoostModel"] = true ∧
    (["Processing", "Training", "RegisterFeaturizerModel",
      "RegisterXGBoostModel"] : List String).indexOf "Processing" <
      (["Processing", "Training", "RegisterFeaturizerModel",
        "RegisterXGBoostModel"] : List String).indexOf "Training" :=
  ⟨by decide,
   (c6_processing_before_training
     ["Processing", "Training", "RegisterFeaturizerModel",
      "RegisterXGBoostModel"] (by decide)).2.2.2⟩

/-! ### Remote-resource deletion calls (C7)

The remote-service API calls appearing in the notebooks, with the
containing notebook and whether the call is active code or commented out.
The deploy/monitor notebook's final cleanup cell is entirely commented
(`#predictor.delete_endpoint()`, `#predictor.delete_model()`), while the
workflow notebook ends with an uncommented `predictor.delete_endpoint()`. -/

/-- A remote API call site in a notebook. -/
structure ApiCallSite where
  notebook : String
  api : String
  active : Bool
deriving DecidableEq, Repr

/-- The deletion/cancellation call sites of the notebooks (no other
`delete_*` or cancellation API appears anywhere in them). -/
def deletionCallSites : List ApiCallSite :=
  [⟨"04_deploy_model_monitor", "delete_monitoring_schedule", true⟩,
   ⟨"04_deploy_model_monitor", "delete_endpoint", false⟩,
   ⟨"04_deploy_model_monitor", "delete_model", false⟩,
   ⟨"07_workflow", "delete_endpoint", true⟩]

/-- The deletion APIs actually invoked (active call sites only). -/
def activeDeletions : List String :=
  (deletionCallSites.filter (fun c => c.active)).map (fun c => c.api)

/-- C7 (counterexample): the workflow notebook actively invokes
`predictor.delete_endpoint()`, a deletion of a remote resource other than
a monitoring schedule — contrary to the claim that no notebook step ever
deletes an endpoint. -/
theorem c7_counterexample :
    (⟨"07_workflow", "delete_endpoint", true⟩ : ApiCallSite) ∈
      deletionCallSites ∧
    "delete_endpoint" ∈ activeDeletions ∧
    "delete_endpoint" ≠ "delete_monitoring_schedule" := by
  refine ⟨by decide, by decide, by decide⟩

/-- C7 (amended): the only deletion operations the notebooks actively
invoke are the monitoring-schedule deletion in the deploy/monitor notebook
and the endpoint deletion in the final cleanup cell of the workflow
notebook; the endpoint/model deletions of the deploy/monitor notebook are
commented out, and in particular no active call ever deletes a model. -/
theorem c7_active_deletions :
    activeDeletions = ["delete_monitoring_schedule", "delete_endpoint"] ∧
    "delete_model" ∉ activeDeletions ∧
    (deletionCallSites.filter (fun c =>
      c.notebook == "04_deploy_model_monitor" &&
      (c.api == "delete_endpoint" || c.api == "delete_model"))).all
        (fun c => !c.active) = true := by
  refine ⟨by decide, by decide, by decide⟩

/-! ### The SDK version gate (C8)

```python
required_version = '2.46.0'

def versiontuple(v):
    return tuple(map(int, (v.split("."))))

if versiontuple(sagemaker.__version__) < versiontuple(required_version):
    # upgrade and restart
```

`versiontuple` maps a dot-separated version string to the list of its
numeric components (`none` when a component is not a decimal numeral, in
which case Python's `int()` would raise).  Python compares tuples
lexicographically element by element, a strict prefix comparing less;
`pythonTupleLt` embeds that comparison algorithm.  The spec-side order is
Mathlib's lexicographic order `List.Lex (· < ·)` over the components. -/

/-- Python `v.split(".")` on the character list of `v`: splits at every
`'.'`, keeping empty pieces. -/
def splitOnDot : List Char → List (List Char)
  | [] => [[]]
  | c :: cs =>
    if c = '.' then [] :: splitOnDot cs
    else
      match splitOnDot cs with
      | [] => [[c]]
      | p :: ps => (c :: p) :: ps

/-- Python `int(s)` on a decimal-digit string: the numeric value, `none`
(a raised `ValueError`) when `s` is empty or contains a non-digit. -/
def parseDecimal (cs : List Char) : Option Nat :=
  if cs.isEmpty then none
  else cs.foldlM (fun acc c =>
    if c.isDigit then some (acc * 10 + (c.toNat - '0'.toNat)) else none) 0

/-- `tuple(map(int, v.split(".")))`: the numeric components of a version
string; `none` when some component is not a decimal numeral. -/
def versiontuple (v : String) : Option (List Nat) :=
  (splitOnDot v.data).mapM parseDecimal

/-- Python's `tuple < tuple` comparison on integer tuples: first differing
component decides; exhausting the left tuple first means less. -/
def pythonTupleLt : List Nat → List Nat → Bool
  | [], [] => false
  | [], _ :: _ => true
  | _ :: _, [] => false
  | x :: xs, y :: ys =>
    if x < y then true else if y < x then false else pythonTupleLt xs ys

/-- The version gate: whether the upgrade-and-restart branch is taken for
the given installed and required version strings. -/
def upgradeBranchTaken (installed required : String) : Option Bool := do
  let xs ← versiontuple installed
  let ys ← versiontuple required
  pure (pythonTupleLt xs ys)

/-- Python tuple comparison agrees with lexicographic order over the
integer components. -/
theorem pythonTupleLt_iff_lex :
    ∀ xs ys : List Nat,
      pythonTupleLt xs ys = true ↔ List.Lex (· < ·) xs ys := by
  intro xs
  induction xs with
  | nil =>
    intro ys
    cases ys with
    | nil =>
      simp only [pythonTupleLt]
      exact ⟨fun h => absurd h (by simp),
        fun h => absurd h (List.Lex.not_nil_right _ _)⟩
    | cons y ys =>
      simp only [pythonTupleLt]
      exact ⟨fun _ => List.Lex.nil, fun _ => trivial⟩
  | cons x xs ih =>
    intro ys
    cases ys with
    | nil =>
      simp only [pythonTupleLt]
      exact ⟨fun h => absurd h (by simp),
        fun h => absurd h (List.Lex.not_nil_right _ _)⟩
    | cons y ys =>
      by_cases hxy : x < y
      · simp only [pythonTupleLt, if_pos hxy]
        exact ⟨fun _ => List.Lex.rel hxy, fun _ => trivial⟩
      · by_cases hyx : y < x
        · simp only [pythonTupleLt, if_neg hxy, if_pos hyx]
          constructor
          · intro h; exact absurd h (by simp)
          · intro h
            cases h with
            | cons h' => exact absurd rfl (Nat.ne_of_gt hyx)
            | rel h' => exact absurd h' hxy
        · have heq : x = y :=
            Nat.le_antisymm (Nat.not_lt.mp hyx) (Nat.not_lt.mp hxy)
          subst heq
          simp only [pythonTupleLt, if_neg hxy, if_neg hyx]
          rw [ih ys]
          constructor
          · exact List.Lex.cons
          · intro h
            cases h with
            | cons h' => exact h'
            | rel h' => exact absurd h' (lt_irrefl x)

/-- C8: for version strings made of dot-separated decimal integers, the
SDK version gate orders them by numeric components: the
upgrade-and-restart branch is taken exactly when the installed version's
component list precedes the required version's component list in
lexicographic order over the integers. -/
theorem c8_version_gate (installed required : String) (xs ys : List Nat)
    (hi : versiontuple installed = some xs)
    (hr : versiontuple required = some ys) :
    upgradeBranchTaken installed required = some true ↔
      List.Lex (· < ·) xs ys := by
  simp only [upgradeBranchTaken, hi, hr, Option.bind_eq_bind,
    Option.some_bind, pure, Option.some.injEq]
  exact pythonTupleLt_iff_lex xs ys

/-- C8 witness: `'2.9.0'` parses to `[2, 9, 0]`, `'2.46.0'` to
`[2, 46, 0]`, and the gate classifies `'2.9.0'` as older than `'2.46.0'`
(numeric order, not string order). -/
theorem c8_version_gate_witness :
    versiontuple "2.9.0" = some [2, 9, 0] ∧
    versiontuple "2.46.0" = some [2, 46, 0] ∧
    upgradeBranchTaken "2.9.0" "2.46.0" = some true := by
  refine ⟨by decide, by decide, ?_⟩
  exact (c8_version_gate "2.9.0" "2.46.0" [2, 9, 0] [2, 46, 0]
    (by decide) (by decide)).mpr
    (List.Lex.cons (List.Lex.rel (by norm_num)))

/-! ### Model paths on the deploy-from-registry path (C10)

```python
sklearn_model_path = sklearn_model_data[0:sklearn_model_data.rfind('/')] + '/'
xgboost_model_path = xgboost_model_data[0:sklearn_model_data.rfind('/')] + '/'
```

Note that both slices use `sklearn_model_data.rfind('/')`.  Python
strings are modelled as `List Char`; `rfind` returns the highest index of
the character, or `-1` when absent; the slice `s[0:k]` takes the first `k`
characters, counting from the end when `k` is negative. -/

/-- Python `s.rfind(c)`: highest index of `c` in `s`, `-1` if absent. -/
def pyRfind : List Char → Char → Int
  | [], _ => -1
  | x :: xs, c =>
    let r := pyRfind xs c
    if r ≥ 0 then r + 1 else if x = c then 0 else -1

/-- Python `s[0:k]`: the first `k` characters; a negative `k` counts from
the end of the string. -/
def pySliceTo (s : List Char) (k : Int) : List Char :=
  if k < 0 then s.take (s.length - (-k).toNat) else s.take k.toNat

/-- `sklearn_model_path`: `sklearn_model_data` sliced to the last `'/'` of
`sklearn_model_data`, plus `'/'`. -/
def sklearnModelPath (skl : List Char) : List Char :=
  pySliceTo skl (pyRfind skl '/') ++ ['/']

/-- `xgboost_model_path`: `xgboost_model_data` sliced to the last `'/'` of
`sklearn_model_data` (not of `xgboost_model_data`), plus `'/'`. -/
def xgboostModelPath (xgb skl : List Char) : List Char :=
  pySliceTo xgb (pyRfind skl '/') ++ ['/']

/-- If `c` does not occur in `s`, `rfind` returns `-1`. -/
theorem pyRfind_eq_neg_one {c : Char} :
    ∀ {s : List Char}, c ∉ s → pyRfind s c = -1 := by
  intro s
  induction s with
  | nil => intro _; rfl
  | cons x xs ih =>
    intro h
    have hx : ¬ x = c := fun he => h (he ▸ List.mem_cons_self x xs)
    have hxs : c ∉ xs := fun hm => h (List.mem_cons_of_mem x hm)
    simp only [pyRfind, ih hxs, if_neg hx]
    decide

/-- On the last-occurrence decomposition `a ++ c :: b` (with `c ∉ b`),
`rfind` returns the length of `a`. -/
theorem pyRfind_concat {c : Char} :
    ∀ (a : List Char) {b : List Char}, c ∉ b →
      pyRfind (a ++ c :: b) c = (a.length : Int) := by
  intro a
  induction a with
  | nil =>
    intro b hb
    simp only [List.nil_append, pyRfind, pyRfind_eq_neg_one hb]
    simp
  | cons x xs ih =>
    intro b hb
    have hr := ih hb
    simp only [List.cons_append, pyRfind, List.append_eq, hr]
    rw [if_pos (by omega : ((xs.length : Int) ≥ 0))]
    simp [List.length_cons]

/-- C10: on the deploy-from-registry path, `sklearn_model_path` is
`sklearn_model_data` truncated just past its last `'/'`, so appending the
basename recovers `sklearn_model_data` for every URI containing `'/'`;
`xgboost_model_path` is `xgboost_model_data` truncated at the index of the
last `'/'` of `sklearn_model_data`, so it equals the parent-directory
prefix of the XGBoost artifact exactly when the two URIs have their last
`'/'` at the same index — and a concrete input pair with differing indices
yields a wrong XGBoost path. -/
theorem c10_model_path_slicing :
    (∀ (skl a b : List Char), skl = a ++ '/' :: b → '/' ∉ b →
      sklearnModelPath skl = a ++ ['/'] ∧ sklearnModelPath skl ++ b = skl) ∧
    (∀ (xgb skl a b a2 b2 : List Char),
      skl = a ++ '/' :: b → '/' ∉ b → xgb = a2 ++ '/' :: b2 → '/' ∉ b2 →
      (xgboostModelPath xgb skl = a2 ++ ['/'] ↔ a.length = a2.length)) ∧
    xgboostModelPath ("s3://bkt/xgb-job/output/model.tar.gz".data)
        ("s3://bkt/sk/model.tar.gz".data) ≠
      "s3://bkt/xgb-job/output/".data := by
  have hpath : ∀ (s a b : List Char), s = a ++ '/' :: b → '/' ∉ b →
      pySliceTo s (pyRfind s '/') = a := by
    intro s a b hs hb
    subst hs
    rw [pyRfind_concat a hb]
    simp only [pySliceTo]
    rw [if_neg (by omega)]
    simp only [Int.toNat_ofNat]
    exact List.take_left a ('/' :: b)
  refine ⟨?_, ?_, by decide⟩
  · intro skl a b hs hb
    have h1 : sklearnModelPath skl = a ++ ['/'] := by
      simp only [sklearnModelPath, hpath skl a b hs hb]
    refine ⟨h1, ?_⟩
    rw [h1, hs]
    simp
  · intro xgb skl a b a2 b2 hs hb hx hb2
    have hk : pyRfind skl '/' = (a.length : Int) := by
      rw [hs]; exact pyRfind_concat a hb
    have hslice : xgboostModelPath xgb skl = xgb.take a.length ++ ['/'] := by
      simp only [xgboostModelPath, hk, pySliceTo]
      rw [if_neg (by omega)]
      simp
    rw [hslice]
    constructor
    · intro he
      have hc : xgb.take a.length = a2 := List.append_cancel_right he
      have hlen := congrArg List.length hc
      rw [List.length_take, hx, List.length_append] at hlen
      simp at hlen
      omega
    · intro he
      rw [hx, he]
      congr 1
      exact List.take_left a2 ('/' :: b2)

/-- C10 witness: `c10_model_path_slicing` evaluated on concrete URIs:
the sklearn path round-trips, and with equal last-slash indices the
XGBoost path is the correct parent-directory prefix. -/
theorem c10_model_path_slicing_witness :
    sklearnModelPath "s3://b/skl/model.tar.gz".data =
      "s3://b/skl/".data ∧
    xgboostModelPath "s3://b/xgb/model.tar.gz".data
      "s3://b/skl/model.tar.gz".data = "s3://b/xgb/".data := by
  have h1 := c10_model_path_slicing.1 "s3://b/skl/model.tar.gz".data
    "s3://b/skl".data "model.tar.gz".data (by decide) (by decide)
  have h2 := (c10_model_path_slicing.2.1 "s3://b/xgb/model.tar.gz".data
    "s3://b/skl/model.tar.gz".data "s3://b/skl".data "model.tar.gz".data
    "s3://b/xgb".data "model.tar.gz".data
    (by decide) (by decide) (by decide) (by decide)).mpr (by decide)
  constructor
  · rw [h1.1]; decide
  · rw [h2]; decide

end SagemakerE2E
